import Mathlib

/-!
# Mpesa STK-Push payment flow: shallow embedding and verification

This file embeds the payment-initiation / callback-reconciliation core of
the `pandora-gardens` repository (Express + Mongoose backend) in Lean 4 and
settles a list of claims about it.

Embedded source files:
* `src/unnamed/part_005` — the Mpesa router module (two revisions: token
  cache `getAccessToken`, `stkPush` handler, `/callback` handler,
  `/history/:phone` handler).
* `src/backend/routes/mpesaRoutes.js` — a further revision of the router
  with a `darajaAuth` middleware running before the `/stk-push` handler.
* `src/unnamed/part_014` — the Mongoose `Payment` model.
* `src/backend/server.js` / `src/unnamed/part_016` — app wiring, the
  (unused) `validateMpesaCallback` middleware and the global error handler.

Modelling conventions: time is `Nat` seconds; JS numbers that carry money
are `ℚ` (a request amount that is not a number at all is `Option.none`);
network effects are recorded as an explicit list of `NetCall`s; the Mongo
collection behind the `Payment` model is a `List PaymentRecord`; a
gateway/network interaction is an input describing what the remote side
answered.
-/

namespace Pandora

/-- Payment status enum, from `src/unnamed/part_014`
(`enum: ['Pending', 'Completed', 'Failed']`). -/
inductive PayStatus where
  | Pending
  | Completed
  | Failed
deriving DecidableEq, Repr

/-- One document of the `Payment` collection, from the schema in
`src/unnamed/part_014` (fields not touched by the embedded handlers,
such as `user` and `transactionDate`, are omitted). `createdAt` is the
server-assigned timestamp used by the history sort. -/
structure PaymentRecord where
  phone : String
  amount : ℚ
  checkoutRequestId : String
  mpesaReceiptNumber : Option String
  status : PayStatus
  createdAt : Nat
deriving DecidableEq, Repr

/-- The Mongo collection of payment records. -/
abbrev Store := List PaymentRecord

/-- The module-level token cache entry (`tokenCache = { token, expires }`
in both `src/unnamed/part_005` and `src/backend/routes/mpesaRoutes.js`);
`expires` is an absolute time in seconds. -/
structure TokenCache where
  token : String
  expires : Nat
deriving DecidableEq, Repr

/-- What the remote token endpoint answered on one exchange attempt:
a body carrying `access_token`, a reachable-but-useless answer (non-2xx
under 500 or a body with no `access_token`), or a network/HTTP failure. -/
inductive ExchangeResult where
  | ok (token : String)
  | badBody
  | networkError
deriving DecidableEq, Repr

/-- `ExchangeResult.isFailure r` holds when the exchange did not yield a
token. -/
def ExchangeResult.isFailure : ExchangeResult → Bool
  | .ok _ => false
  | _ => true

/-- Outbound network calls the router can make. -/
inductive NetCall where
  | tokenExchange
  | stkSubmit
deriving DecidableEq, Repr

/-- `config.mpesa.tokenTTL = 3500` seconds in `src/unnamed/part_005`;
`moment().add(3500, 'seconds')` in `src/backend/routes/mpesaRoutes.js`. -/
def tokenTTL : Nat := 3500

/-- The refresh arm of `getAccessToken`: perform one exchange; on a body
with `access_token`, overwrite `tokenCache` with the token and
`now + 3500` and return the token; on any failure, throw
(`"MPesa service unavailable"`) leaving `tokenCache` as it was.
From `src/backend/routes/mpesaRoutes.js` lines 54–99 and
`src/unnamed/part_005` lines 88–108. -/
def fetchToken (now : Nat) (cache : Option TokenCache) (exch : ExchangeResult) :
    Except String String × Option TokenCache × List NetCall :=
  match exch with
  | .ok t => (.ok t, some ⟨t, now + tokenTTL⟩, [.tokenExchange])
  | .badBody => (.error "MPesa service unavailable", cache, [.tokenExchange])
  | .networkError => (.error "MPesa service unavailable", cache, [.tokenExchange])

/-- `getAccessToken`: if a cache entry exists and `moment().isBefore(expires)`
(strictly `now < expires`), return the cached token with no network call;
otherwise refresh. From `src/backend/routes/mpesaRoutes.js` lines 47–100
and `src/unnamed/part_005` lines 82–109 (the two are identical on this
logic). -/
def getAccessToken (now : Nat) (cache : Option TokenCache) (exch : ExchangeResult) :
    Except String String × Option TokenCache × List NetCall :=
  match cache with
  | some c => if now < c.expires then (.ok c.token, some c, []) else fetchToken now cache exch
  | none => fetchToken now cache exch

/-! ## Input validation -/

/-- The router-level phone pattern `/^254(7\d{8}|1\d{8})$/` of
`src/unnamed/part_005` (`config.validation.phoneRegex`), which is the same
language as `/^254[17]\d{8}$/` used inline by
`src/backend/routes/mpesaRoutes.js`: the literal `254`, then `7` or `1`,
then exactly eight decimal digits. -/
def phoneMatches254_17 (s : String) : Bool :=
  match s.data with
  | '2' :: '5' :: '4' :: p :: rest =>
      (p == '7' || p == '1') && rest.length == 8 && rest.all Char.isDigit
  | _ => false

/-- The stricter inline pattern `/^2547\d{8}$/` checked inside the
`stkPush` handler of `src/unnamed/part_005` (line 116). -/
def phoneMatches2547 (s : String) : Bool :=
  match s.data with
  | '2' :: '5' :: '4' :: '7' :: rest => rest.length == 8 && rest.all Char.isDigit
  | _ => false

/-- `body("amount").isFloat({ min: 1 })` from the `validateSTKRequest`
middleware of `src/unnamed/part_005`: the body field parses as a number
and is at least 1. `none` stands for a body value that is not a number. -/
def amountIsFloatMin1 : Option ℚ → Bool
  | none => false
  | some q => 1 ≤ q

/-- The inline amount check of `src/backend/routes/mpesaRoutes.js`
line 118: reject when `isNaN(amount) || amount < 1`. -/
def amountOkRoutes : Option ℚ → Bool
  | none => false
  | some q => ¬ q < 1

/-- The inline amount check of the `stkPush` handler in
`src/unnamed/part_005` line 122: reject when
`!amount || isNaN(amount) || amount <= 0` (a zero amount is falsy in JS,
so `!amount` and `amount <= 0` coincide on numbers). -/
def amountOkStkPush : Option ℚ → Bool
  | none => false
  | some q => ¬ q ≤ 0

/-! ## The STK push payload -/

/-- JavaScript `Math.floor` on a rational. -/
def jsMathFloor (q : ℚ) : ℤ := ⌊q⌋

/-- JavaScript `parseInt` applied to a (finite, decimal-rendered) number:
truncation toward zero. For the validated amounts of this flow
(`1 ≤ q`) it coincides with `Math.floor`. -/
def jsParseInt (q : ℚ) : ℤ := if 0 ≤ q then ⌊q⌋ else -⌊-q⌋

/-- The fields of the gateway push payload that the claims are about.
`Amount: Math.floor(amount)` in `src/backend/routes/mpesaRoutes.js`
line 146 (`Amount: parseInt(amount)` in `src/unnamed/part_005` line 141);
`PartyA` and `PhoneNumber` both carry the payer phone. -/
structure StkPayload where
  amountField : ℤ
  partyA : String
deriving DecidableEq, Repr

/-- Build the push payload of `src/backend/routes/mpesaRoutes.js`
lines 141–153 (the fields the claims mention). -/
def buildStkPayload (phone : String) (amount : ℚ) : StkPayload :=
  ⟨jsMathFloor amount, phone⟩

/-- Build the push payload of `src/unnamed/part_005` lines 136–148,
whose `Amount` is `parseInt(amount)`. -/
def buildStkPayloadP5 (phone : String) (amount : ℚ) : StkPayload :=
  ⟨jsParseInt amount, phone⟩

/-! ## The `/stk-push` route -/

/-- What the gateway push endpoint answered: an HTTP-level failure
(timeout / 5xx, axios throws), or a reply body carrying `ResponseCode`
(a string; `"0"` means accepted), `CheckoutRequestID` and
`ResponseDescription`. -/
inductive PushOutcome where
  | httpError
  | reply (responseCode : String) (checkoutRequestID : String) (desc : String)
deriving DecidableEq, Repr

/-- Observable outcome of one `/stk-push` request: the HTTP status and
success flag of the response, the correlation id returned to the client
(if any), the token cache after the request, the outbound network calls
made, the payload submitted to the gateway (if the push call was
reached), and the list of `Payment` documents the handler inserted into
the store during the request. -/
structure RouteOutcome where
  httpStatus : Nat
  success : Bool
  checkoutRequestId : Option String
  cache : Option TokenCache
  calls : List NetCall
  submitted : Option StkPayload
  inserted : List PaymentRecord
deriving DecidableEq, Repr

/-- `router.post('/stk-push', darajaAuth, handler)` from
`src/backend/routes/mpesaRoutes.js` lines 26–44 and 103–214.
The `darajaAuth` middleware acquires the token (503 on failure) BEFORE
the handler validates `phone` and `amount`; the handler then builds the
payload, posts it, and answers 200 on `ResponseCode === '0'` or 500
otherwise (`error.response?.status || 500` for the locally thrown
error). Nothing on any path writes to the `Payment` collection. -/
def stkPushRoute (now : Nat) (cache : Option TokenCache) (exch : ExchangeResult)
    (phone : String) (amount : Option ℚ) (push : PushOutcome) : RouteOutcome :=
  match getAccessToken now cache exch with
  | (.error _, cache2, calls) =>
      ⟨503, false, none, cache2, calls, none, []⟩
  | (.ok _, cache2, calls) =>
      if ¬ phoneMatches254_17 phone then
        ⟨400, false, none, cache2, calls, none, []⟩
      else
        match amount with
        | none => ⟨400, false, none, cache2, calls, none, []⟩
        | some q =>
            if q < 1 then ⟨400, false, none, cache2, calls, none, []⟩
            else
              let payload := buildStkPayload phone q
              match push with
              | .httpError =>
                  ⟨500, false, none, cache2, calls ++ [.stkSubmit], some payload, []⟩
              | .reply rc cid _desc =>
                  if rc = "0" then
                    ⟨200, true, some cid, cache2, calls ++ [.stkSubmit], some payload, []⟩
                  else
                    ⟨500, false, none, cache2, calls ++ [.stkSubmit], some payload, []⟩

/-- `router.post("/stk-push", apiLimiter, validateSTKRequest,
asyncHandler(stkPush))` from `src/unnamed/part_005` lines 50–60 and
112–170 (both revisions of that file are identical here). The
`validateSTKRequest` middleware rejects with 400 before anything else
runs; the `stkPush` handler re-validates with its stricter inline
checks, then acquires the token, then posts the payload; its catch-all
answers 400 on every error, and on an HTTP-2xx reply it forwards the
gateway body with status 200 without inspecting `ResponseCode`. Nothing
on any path writes to the `Payment` collection. -/
def stkPushRouteP5 (now : Nat) (cache : Option TokenCache) (exch : ExchangeResult)
    (phone : String) (amount : Option ℚ) (push : PushOutcome) : RouteOutcome :=
  if ¬ (phoneMatches254_17 phone && amountIsFloatMin1 amount) then
    ⟨400, false, none, cache, [], none, []⟩
  else if ¬ phoneMatches2547 phone then
    ⟨400, false, none, cache, [], none, []⟩
  else if ¬ amountOkStkPush amount then
    ⟨400, false, none, cache, [], none, []⟩
  else
    match amount with
    | none => ⟨400, false, none, cache, [], none, []⟩
    | some q =>
        match getAccessToken now cache exch with
        | (.error _, cache2, calls) =>
            ⟨400, false, none, cache2, calls, none, []⟩
        | (.ok _, cache2, calls) =>
            let payload := buildStkPayloadP5 phone q
            match push with
            | .httpError =>
                ⟨400, false, none, cache2, calls ++ [.stkSubmit], some payload, []⟩
            | .reply _rc cid _desc =>
                ⟨200, true, some cid, cache2, calls ++ [.stkSubmit], some payload, []⟩

/-! ## The `/callback` route -/

/-- The fields of `req.body.Body.stkCallback` that the handler reads:
`CheckoutRequestID`, the numeric `ResultCode` (0 = success), and the
receipt number a successful callback carries. -/
structure StkCallback where
  checkoutRequestID : String
  resultCode : ℤ
  mpesaReceiptNumber : Option String
deriving DecidableEq, Repr

/-- The JSON envelope a callback delivery is answered with: HTTP status,
body `ResultCode` and body `ResultDesc`. -/
structure CallbackResponse where
  httpStatus : Nat
  bodyResultCode : ℤ
  bodyResultDesc : String
deriving DecidableEq, Repr

/-- `Payment.findOneAndUpdate({ checkoutRequestId: cid },
{ status: "Completed" })` from `src/unnamed/part_005` lines 179–182
(both revisions): update the first document whose `checkoutRequestId`
equals `cid`, setting only its `status` field to `Completed`; when no
document matches, nothing changes. The filter carries no condition on
the current status. -/
def findOneAndUpdateCompleted (store : Store) (cid : String) : Store :=
  match store with
  | [] => []
  | r :: rs =>
      if r.checkoutRequestId = cid then { r with status := .Completed } :: rs
      else r :: findOneAndUpdateCompleted rs cid

/-- The `/callback` handler body from `src/unnamed/part_005`
lines 173–186 (identical in the second revision, lines 363–376): when
`callback.ResultCode === 0`, run the `findOneAndUpdate` above; for any
other result code do nothing; in both cases answer
`{ ResultCode: 0, ResultDesc: "Success" }`. -/
def callbackHandler (store : Store) (cb : StkCallback) : Store × CallbackResponse :=
  if cb.resultCode = 0 then
    (findOneAndUpdateCompleted store cb.checkoutRequestID, ⟨200, 0, "Success"⟩)
  else
    (store, ⟨200, 0, "Success"⟩)

/-- The `/callback` endpoint as deployed: the handler above wrapped in
`asyncHandler`, so an internal error thrown while processing
(`internalError = true`; e.g. a malformed body or a storage failure
before any write) reaches the global error handler of
`src/backend/server.js` / `src/unnamed/part_016`, which for a path
containing `mpesa/callback` answers
`res.status(200).json({ ResultCode: 1, ResultDesc: 'Service unavailable' })`.
No path throws to the upstream caller and no path inserts a record. -/
def callbackEndpoint (store : Store) (cb : StkCallback) (internalError : Bool) :
    Store × CallbackResponse :=
  if internalError then (store, ⟨200, 1, "Service unavailable"⟩)
  else callbackHandler store cb

/-- The `validateMpesaCallback` middleware of `src/backend/server.js`
lines 146–160 (`src/unnamed/part_016` lines 361–370): compare the
`x-mpesa-signature` header against the HMAC-SHA256 of the raw body under
the shared secret (`expectedSig` stands for that computed digest); on
mismatch answer `403 { ResultCode: 1, ResultDesc: 'Invalid signature' }`
(`some` of that response), on match fall through to the next handler
(`none`). -/
def validateMpesaCallback (expectedSig : String) (sigHeader : Option String) :
    Option CallbackResponse :=
  if sigHeader = some expectedSig then none
  else some ⟨403, 1, "Invalid signature"⟩

/-- The `/callback` route as registered:
`router.post("/callback", asyncHandler(async (req, res) => ...))` in
`src/unnamed/part_005` lines 173 and 363. The middleware chain contains
no signature check (`validateMpesaCallback` is defined in the server
file but attached to no route), so the signature header is ignored and
every delivery reaches the handler. -/
def callbackRoute (store : Store) (cb : StkCallback) (_sigHeader : Option String) :
    Store × CallbackResponse :=
  callbackHandler store cb

/-! ## The `/history/:phone` route -/

/-- Descending `createdAt` order, the `sort: { createdAt: -1 }` of the
history query: `a` comes before `b` when `b.createdAt ≤ a.createdAt`. -/
def createdDesc (a b : PaymentRecord) : Prop := b.createdAt ≤ a.createdAt

instance : DecidableRel createdDesc := fun a b => Nat.decLe b.createdAt a.createdAt

instance : IsTotal PaymentRecord createdDesc :=
  ⟨fun a b => le_total b.createdAt a.createdAt⟩

instance : IsTrans PaymentRecord createdDesc :=
  ⟨fun _ _ _ hab hbc => le_trans hbc hab⟩

/-- JavaScript `Math.ceil(a / b)` for naturals with `b > 0`, as used in
`totalPages: Math.ceil(total / options.limit)`. -/
def jsMathCeilDiv (a b : Nat) : Nat := (a + b - 1) / b

/-- The JSON body the history route answers with. -/
structure HistoryResponse where
  data : List PaymentRecord
  total : Nat
  page : Nat
  limit : Nat
  totalPages : Nat
deriving DecidableEq, Repr

/-- `router.get("/history/:phone", ...)` from `src/unnamed/part_005`
lines 379–407 (the revision that replaces the first one): run
`Payment.find({ phone }).sort({ createdAt: -1 }).limit(limit)
.skip((page - 1) * limit)` together with
`Payment.countDocuments({ phone })`, and answer with the page of data,
the total count, the echoed `page` and `limit`, and
`totalPages = Math.ceil(total / limit)`. -/
def historyRoute (store : Store) (phone : String) (page limit : Nat) : HistoryResponse :=
  let matching := store.filter (fun r => r.phone == phone)
  let sorted := matching.insertionSort createdDesc
  { data := (sorted.drop ((page - 1) * limit)).take limit
    total := matching.length
    page := page
    limit := limit
    totalPages := jsMathCeilDiv matching.length limit }

/-- A concrete ledger of 25 records for one phone number, used to
evaluate the history pagination at the numbers of the specification's
test scenario (`total = 25`, `limit = 10`). -/
def demoStore25 : Store :=
  (List.range 25).map fun i =>
    ⟨"254712345678", 500, toString i, none, .Pending, i⟩

/-! ## Helper lemmas about the store update -/

/-- Updating by `checkoutRequestId` keeps every field of the first
matching record except `status`, which becomes `Completed`. -/
theorem find?_findOneAndUpdateCompleted (store : Store) (cid : String) (r : PaymentRecord)
    (h : store.find? (fun x => x.checkoutRequestId == cid) = some r) :
    (findOneAndUpdateCompleted store cid).find? (fun x => x.checkoutRequestId == cid)
      = some { r with status := .Completed } := by
  induction store with
  | nil => simp at h
  | cons x xs ih =>
      by_cases hx : x.checkoutRequestId = cid
      · rw [List.find?_cons_of_pos _ (by simpa using hx)] at h
        cases h
        rw [findOneAndUpdateCompleted, if_pos hx,
          List.find?_cons_of_pos _ (by simpa using hx)]
      · rw [List.find?_cons_of_neg _ (by simpa using hx)] at h
        rw [findOneAndUpdateCompleted, if_neg hx,
          List.find?_cons_of_neg _ (by simpa using hx)]
        exact ih h

/-- Re-running the update is the identity: the second write stores the
value already present. -/
theorem findOneAndUpdateCompleted_idem (store : Store) (cid : String) :
    findOneAndUpdateCompleted (findOneAndUpdateCompleted store cid) cid
      = findOneAndUpdateCompleted store cid := by
  induction store with
  | nil => rfl
  | cons x xs ih =>
      by_cases hx : x.checkoutRequestId = cid
      · simp [findOneAndUpdateCompleted, hx]
      · simp [findOneAndUpdateCompleted, hx, ih]

/-- The update inserts and deletes nothing. -/
theorem length_findOneAndUpdateCompleted (store : Store) (cid : String) :
    (findOneAndUpdateCompleted store cid).length = store.length := by
  induction store with
  | nil => rfl
  | cons x xs ih =>
      by_cases hx : x.checkoutRequestId = cid
      · simp [findOneAndUpdateCompleted, hx]
      · simp [findOneAndUpdateCompleted, hx, ih]

/-- When no record carries the id, the update is the identity. -/
theorem findOneAndUpdateCompleted_no_match (store : Store) (cid : String)
    (h : ∀ r ∈ store, r.checkoutRequestId ≠ cid) :
    findOneAndUpdateCompleted store cid = store := by
  induction store with
  | nil => rfl
  | cons x xs ih =>
      rw [findOneAndUpdateCompleted, if_neg (h x (by simp))]
      rw [ih (fun r hr => h r (by simp [hr]))]

/-! ## Claims C7 and C8: the access-token cache -/

/-- **C7.** `getAccessToken` returns the cached token whenever the
current time is strictly before the cached expiry, making zero network
calls and leaving the cache as it was; a call at or after expiry whose
exchange succeeds makes exactly one token-exchange call and stores the
new token with expiry `now + tokenTTL`, where `tokenTTL = 3500` seconds,
below the gateway-advertised 3600-second lifetime. -/
theorem getAccessToken_cache_behavior (now : Nat) (c : TokenCache)
    (exch : ExchangeResult) (t : String) :
    (now < c.expires →
        getAccessToken now (some c) exch = (.ok c.token, some c, [])) ∧
    (c.expires ≤ now → exch = .ok t →
        getAccessToken now (some c) exch
          = (.ok t, some ⟨t, now + tokenTTL⟩, [.tokenExchange])) ∧
    tokenTTL = 3500 ∧ tokenTTL < 3600 := by
  refine ⟨fun h => ?_, fun h ht => ?_, rfl, by decide⟩
  · simp [getAccessToken, h]
  · subst ht
    simp [getAccessToken, Nat.not_lt.mpr h, fetchToken]

/-- Witness for C7 at concrete inputs: at time 10 a cache entry expiring
at 20 is served from the cache; at time 30 the same entry is refreshed
by one exchange and re-stored with expiry `30 + tokenTTL`. -/
theorem getAccessToken_cache_behavior_witness :
    getAccessToken 10 (some ⟨"tok", 20⟩) (.ok "fresh")
      = (.ok "tok", some ⟨"tok", 20⟩, []) ∧
    getAccessToken 30 (some ⟨"tok", 20⟩) (.ok "fresh")
      = (.ok "fresh", some ⟨"fresh", 30 + tokenTTL⟩, [.tokenExchange]) :=
  ⟨(getAccessToken_cache_behavior 10 ⟨"tok", 20⟩ (.ok "fresh") "fresh").1 (by decide),
   (getAccessToken_cache_behavior 30 ⟨"tok", 20⟩ (.ok "fresh") "fresh").2.1 (by decide) rfl⟩

/-- **C8.** When a refresh is needed (no cache entry, or the entry has
expired) and the exchange fails in any way, `getAccessToken` fails with
the upstream-auth error and the cache — including a stale previous
entry — is left completely unchanged. -/
theorem getAccessToken_failure_preserves_cache (now : Nat) (cache : Option TokenCache)
    (exch : ExchangeResult) (hfail : exch.isFailure = true)
    (hmiss : cache = none ∨ ∃ c, cache = some c ∧ c.expires ≤ now) :
    (getAccessToken now cache exch).1 = .error "MPesa service unavailable" ∧
    (getAccessToken now cache exch).2.1 = cache := by
  have hbranch : getAccessToken now cache exch = fetchToken now cache exch := by
    rcases hmiss with rfl | ⟨c, rfl, hc⟩
    · rfl
    · simp [getAccessToken, Nat.not_lt.mpr hc]
  rw [hbranch]
  cases exch with
  | ok t => simp [ExchangeResult.isFailure] at hfail
  | badBody => exact ⟨rfl, rfl⟩
  | networkError => exact ⟨rfl, rfl⟩

/-- Witness for C8: at time 30, a network failure during refresh of an
entry that expired at 20 yields the error and leaves the stale entry in
place. -/
theorem getAccessToken_failure_preserves_cache_witness :
    (getAccessToken 30 (some ⟨"stale", 20⟩) .networkError).1
      = .error "MPesa service unavailable" ∧
    (getAccessToken 30 (some ⟨"stale", 20⟩) .networkError).2.1 = some ⟨"stale", 20⟩ :=
  getAccessToken_failure_preserves_cache 30 (some ⟨"stale", 20⟩) .networkError rfl
    (Or.inr ⟨⟨"stale", 20⟩, rfl, by decide⟩)

/-! ## Claims C2 and C3: callback reconciliation -/

/-- **C2, counterexample.** A callback with non-zero `resultCode` whose
`checkoutRequestID` matches a `Pending` record does not set the record
to `Failed`: the handler leaves the store untouched, so the record is
still `Pending`. -/
theorem callback_nonzero_leaves_pending_cex :
    (callbackHandler [⟨"254712345678", 500, "ws_CO_1", none, .Pending, 0⟩]
        ⟨"ws_CO_1", 1, none⟩).1
      = [⟨"254712345678", 500, "ws_CO_1", none, .Pending, 0⟩] ∧
    PayStatus.Pending ≠ PayStatus.Failed := by
  exact ⟨rfl, by decide⟩

/-- **C2, amended.** The callback handler updates the store only for
`resultCode = 0`; then the first record matching the callback's
`checkoutRequestID` gets `status = Completed` with every other field —
including `mpesaReceiptNumber`, which is never written — unchanged. A
callback with non-zero `resultCode` performs no update at all (the
record stays in whatever state it was, never `Failed`). -/
theorem callback_update_behavior (store : Store) (cb : StkCallback) :
    (cb.resultCode ≠ 0 → (callbackHandler store cb).1 = store) ∧
    (cb.resultCode = 0 → ∀ r,
      store.find? (fun x => x.checkoutRequestId == cb.checkoutRequestID) = some r →
      (callbackHandler store cb).1.find?
          (fun x => x.checkoutRequestId == cb.checkoutRequestID)
        = some { r with status := .Completed }) := by
  constructor
  · intro h
    simp [callbackHandler, h]
  · intro h r hr
    simp only [callbackHandler, if_pos h]
    exact find?_findOneAndUpdateCompleted store cb.checkoutRequestID r hr

/-- Witness for C2 (amended): a success callback turns the matching
`Pending` record into a `Completed` one with its receipt field still
empty, and a failure callback leaves a store unchanged. -/
theorem callback_update_behavior_witness :
    (callbackHandler [⟨"254700000001", 120, "ws_CO_7", none, .Pending, 3⟩]
        ⟨"ws_CO_7", 0, some "RCPT77"⟩).1.find?
        (fun x => x.checkoutRequestId == "ws_CO_7")
      = some ⟨"254700000001", 120, "ws_CO_7", none, .Completed, 3⟩ ∧
    (callbackHandler [⟨"254700000001", 120, "ws_CO_7", none, .Pending, 3⟩]
        ⟨"ws_CO_7", 5, none⟩).1
      = [⟨"254700000001", 120, "ws_CO_7", none, .Pending, 3⟩] :=
  ⟨(callback_update_behavior [⟨"254700000001", 120, "ws_CO_7", none, .Pending, 3⟩]
      ⟨"ws_CO_7", 0, some "RCPT77"⟩).2 rfl
      ⟨"254700000001", 120, "ws_CO_7", none, .Pending, 3⟩ rfl,
   (callback_update_behavior [⟨"254700000001", 120, "ws_CO_7", none, .Pending, 3⟩]
      ⟨"ws_CO_7", 5, none⟩).1 (by decide)⟩

/-- **C3, counterexample.** The store-level update carries no status
gate: a success callback for a record already in the terminal state
`Failed` overwrites it to `Completed` — a second transition out of a
terminal state, so a terminal record is not immutable. -/
theorem callback_overwrites_terminal_cex :
    (callbackHandler [⟨"254712345678", 500, "ws_CO_2", none, .Failed, 0⟩]
        ⟨"ws_CO_2", 0, some "ABC123"⟩).1
      = [⟨"254712345678", 500, "ws_CO_2", none, .Completed, 0⟩] := rfl

/-- **C3, amended.** The update filters only on `checkoutRequestId`,
with no `Pending` gate anywhere (store or caller): a `resultCode = 0`
callback sets the matching record to `Completed` whatever its current
status — in particular a terminal `Failed` record would be overwritten.
Replaying a callback converges only because the write is idempotent:
processing the same callback a second time leaves the store exactly as
after the first processing. -/
theorem callback_no_status_gate_replay (store : Store) (cb : StkCallback) :
    (callbackHandler ((callbackHandler store cb).1) cb).1 = (callbackHandler store cb).1 ∧
    (cb.resultCode = 0 → ∀ r,
      store.find? (fun x => x.checkoutRequestId == cb.checkoutRequestID) = some r →
      r.status = .Failed →
      (callbackHandler store cb).1.find?
          (fun x => x.checkoutRequestId == cb.checkoutRequestID)
        = some { r with status := .Completed }) := by
  constructor
  · by_cases h : cb.resultCode = 0
    · simp [callbackHandler, h, findOneAndUpdateCompleted_idem]
    · simp [callbackHandler, h]
  · intro h r hr _hterm
    simp only [callbackHandler, if_pos h]
    exact find?_findOneAndUpdateCompleted store cb.checkoutRequestID r hr

/-- Witness for C3 (amended): replaying a success callback on a
one-record store changes nothing the second time, and a `Failed` record
is overwritten to `Completed` by a success callback. -/
theorem callback_no_status_gate_replay_witness :
    (callbackHandler ((callbackHandler
        [⟨"254700000002", 990, "ws_CO_8", none, .Failed, 4⟩] ⟨"ws_CO_8", 0, none⟩).1)
        ⟨"ws_CO_8", 0, none⟩).1
      = (callbackHandler [⟨"254700000002", 990, "ws_CO_8", none, .Failed, 4⟩]
          ⟨"ws_CO_8", 0, none⟩).1 ∧
    (callbackHandler [⟨"254700000002", 990, "ws_CO_8", none, .Failed, 4⟩]
        ⟨"ws_CO_8", 0, none⟩).1.find? (fun x => x.checkoutRequestId == "ws_CO_8")
      = some ⟨"254700000002", 990, "ws_CO_8", none, .Completed, 4⟩ :=
  ⟨(callback_no_status_gate_replay
      [⟨"254700000002", 990, "ws_CO_8", none, .Failed, 4⟩] ⟨"ws_CO_8", 0, none⟩).1,
   (callback_no_status_gate_replay
      [⟨"254700000002", 990, "ws_CO_8", none, .Failed, 4⟩] ⟨"ws_CO_8", 0, none⟩).2 rfl
      ⟨"254700000002", 990, "ws_CO_8", none, .Failed, 4⟩ rfl rfl⟩

/-! ## Claim C4: the callback acknowledgment -/

/-- **C4, counterexample.** When processing a callback raises an
internal application error, the global error handler answers HTTP 200
with body `ResultCode` **1** (`'Service unavailable'`), not the
`ResultCode` 0 envelope the claim requires for every callback. -/
theorem callback_internal_error_code_one_cex :
    (callbackEndpoint [] ⟨"ws_CO_1", 0, none⟩ true).2
      = ⟨200, 1, "Service unavailable"⟩ ∧
    ((callbackEndpoint [] ⟨"ws_CO_1", 0, none⟩ true).2.bodyResultCode ≠ 0) := by
  exact ⟨rfl, by decide⟩

/-- **C4, amended.** The callback endpoint always answers HTTP 200 and
never throws to the caller, and it never creates (or deletes) a record;
when processing completes normally — including for a `checkoutRequestID`
matching no record, which is a pure no-op — the body is
`{ResultCode: 0, ResultDesc: "Success"}`; but when processing raises an
internal error the global handler answers `{ResultCode: 1, ResultDesc:
'Service unavailable'}` (still HTTP 200), leaving the store unchanged. -/
theorem callback_ack_behavior (store : Store) (cb : StkCallback) (e : Bool) :
    (callbackEndpoint store cb e).2.httpStatus = 200 ∧
    (callbackEndpoint store cb e).1.length = store.length ∧
    (e = false → (callbackEndpoint store cb e).2 = ⟨200, 0, "Success"⟩) ∧
    (e = true → (callbackEndpoint store cb e).2 = ⟨200, 1, "Service unavailable"⟩ ∧
        (callbackEndpoint store cb e).1 = store) ∧
    ((∀ r ∈ store, r.checkoutRequestId ≠ cb.checkoutRequestID) →
        (callbackEndpoint store cb e).1 = store) := by
  cases e with
  | true =>
      exact ⟨rfl, rfl, fun h => by simp at h, fun _ => ⟨rfl, rfl⟩, fun _ => rfl⟩
  | false =>
      refine ⟨?_, ?_, fun _ => ?_, fun h => by simp at h, fun h => ?_⟩
      · by_cases h : cb.resultCode = 0 <;> simp [callbackEndpoint, callbackHandler, h]
      · by_cases h : cb.resultCode = 0 <;>
          simp [callbackEndpoint, callbackHandler, h, length_findOneAndUpdateCompleted]
      · by_cases h : cb.resultCode = 0 <;> simp [callbackEndpoint, callbackHandler, h]
      · by_cases hrc : cb.resultCode = 0
        · simp [callbackEndpoint, callbackHandler, hrc,
            findOneAndUpdateCompleted_no_match store cb.checkoutRequestID h]
        · simp [callbackEndpoint, callbackHandler, hrc]

/-- Witness for C4 (amended): a success callback whose id matches no
record on a one-record store is acknowledged with `ResultCode` 0 and
changes nothing; the internal-error path acknowledges with
`ResultCode` 1 and changes nothing. -/
theorem callback_ack_behavior_witness :
    (callbackEndpoint [⟨"254700000003", 50, "ws_CO_9", none, .Pending, 5⟩]
        ⟨"ws_CO_unknown", 0, none⟩ false).2 = ⟨200, 0, "Success"⟩ ∧
    (callbackEndpoint [⟨"254700000003", 50, "ws_CO_9", none, .Pending, 5⟩]
        ⟨"ws_CO_unknown", 0, none⟩ false).1
      = [⟨"254700000003", 50, "ws_CO_9", none, .Pending, 5⟩] ∧
    (callbackEndpoint [⟨"254700000003", 50, "ws_CO_9", none, .Pending, 5⟩]
        ⟨"ws_CO_unknown", 0, none⟩ true).1
      = [⟨"254700000003", 50, "ws_CO_9", none, .Pending, 5⟩] :=
  ⟨(callback_ack_behavior [⟨"254700000003", 50, "ws_CO_9", none, .Pending, 5⟩]
      ⟨"ws_CO_unknown", 0, none⟩ false).2.2.1 rfl,
   (callback_ack_behavior [⟨"254700000003", 50, "ws_CO_9", none, .Pending, 5⟩]
      ⟨"ws_CO_unknown", 0, none⟩ false).2.2.2.2 (by decide),
   ((callback_ack_behavior [⟨"254700000003", 50, "ws_CO_9", none, .Pending, 5⟩]
      ⟨"ws_CO_unknown", 0, none⟩ true).2.2.2.1 rfl).2⟩

/-! ## Claim C5: callback authentication -/

/-- **C5.** The HMAC middleware `validateMpesaCallback` exists and would
answer 403 to a delivery without a valid signature, but it is attached
to no route: the `/callback` route as registered ignores the signature
header entirely, so an unauthenticated success callback still reaches
the record-update step (the matching `Pending` record becomes
`Completed`) and is acknowledged with `ResultCode` 0 instead of being
rejected with 403. -/
theorem callback_route_ignores_signature :
    validateMpesaCallback "expected-digest" none
      = some ⟨403, 1, "Invalid signature"⟩ ∧
    callbackRoute [⟨"254712345678", 500, "ws_CO_3", none, .Pending, 0⟩]
        ⟨"ws_CO_3", 0, some "ABC123"⟩ none
      = ([⟨"254712345678", 500, "ws_CO_3", none, .Completed, 0⟩],
         ⟨200, 0, "Success"⟩) := by
  exact ⟨rfl, rfl⟩

/-! ## Claims C1, C6 and C10: the initiation route -/

/-- **C1.** Neither revision of the initiation route ever writes to the
`Payment` collection: on every path — including the success path, where
the gateway accepted the push with response code `"0"` and a
`CheckoutRequestID` was returned to the client — the set of inserted
records is empty. The concrete success run shown (valid phone, amount
500, gateway reply `("0", "ws_CO_1")`) answers success to the caller yet
persists nothing, so no `Pending` record ever exists for the callback to
reconcile. -/
theorem stkPush_persists_no_record :
    (∀ now cache exch phone amount push,
        (stkPushRoute now cache exch phone amount push).inserted = [] ∧
        (stkPushRouteP5 now cache exch phone amount push).inserted = []) ∧
    (stkPushRoute 0 none (.ok "tok") "254712345678" (some 500)
        (.reply "0" "ws_CO_1" "Success")).success = true ∧
    (stkPushRoute 0 none (.ok "tok") "254712345678" (some 500)
        (.reply "0" "ws_CO_1" "Success")).checkoutRequestId = some "ws_CO_1" ∧
    (stkPushRoute 0 none (.ok "tok") "254712345678" (some 500)
        (.reply "0" "ws_CO_1" "Success")).inserted = [] := by
  refine ⟨fun now cache exch phone amount push => ⟨?_, ?_⟩, rfl, rfl, rfl⟩
  · unfold stkPushRoute
    repeat' split
    all_goals rfl
  · unfold stkPushRouteP5
    repeat' split
    all_goals rfl

/-- **C6, counterexample.** In the `darajaAuth`-guarded route, a request
with the invalid phone `"12345"` (and a valid amount) is indeed answered
400, but only after the middleware has already performed a
token-exchange network call (cold cache): the rejection does not happen
before every network call. -/
theorem stk_push_token_call_before_validation_cex :
    (stkPushRoute 0 none (.ok "tok") "12345" (some 500)
        (.reply "0" "ws_CO_1" "OK")).httpStatus = 400 ∧
    (stkPushRoute 0 none (.ok "tok") "12345" (some 500)
        (.reply "0" "ws_CO_1" "OK")).calls = [.tokenExchange] ∧
    ([NetCall.tokenExchange] : List NetCall) ≠ [] := by
  exact ⟨rfl, rfl, by decide⟩

/-- **C6, amended.** The validators behave as the claim's examples say:
the phone pattern rejects `"12345"` and accepts `"254712345678"`, and
the amount checks reject a non-numeric body, `0` and negative values
while accepting `500`. In the `validateSTKRequest` revision
(`src/unnamed/part_005`) an invalid phone or amount is rejected with 400
before any network call (and with the token cache untouched); in the
`darajaAuth` revision (`src/backend/routes/mpesaRoutes.js`) the
token-exchange network call precedes validation, so the
"before any network call" part holds only for the former. -/
theorem stk_push_validator_behavior :
    phoneMatches254_17 "12345" = false ∧
    phoneMatches254_17 "254712345678" = true ∧
    amountIsFloatMin1 none = false ∧
    amountIsFloatMin1 (some 0) = false ∧
    amountIsFloatMin1 (some (-5)) = false ∧
    amountIsFloatMin1 (some 500) = true ∧
    amountOkRoutes none = false ∧
    amountOkRoutes (some 0) = false ∧
    amountOkRoutes (some (-5)) = false ∧
    amountOkRoutes (some 500) = true ∧
    (∀ now cache exch phone amount push,
      phoneMatches254_17 phone = false ∨ amountIsFloatMin1 amount = false →
        (stkPushRouteP5 now cache exch phone amount push).httpStatus = 400 ∧
        (stkPushRouteP5 now cache exch phone amount push).calls = [] ∧
        (stkPushRouteP5 now cache exch phone amount push).cache = cache) := by
  refine ⟨rfl, rfl, rfl, by decide, by decide, by decide, rfl, by decide, by decide,
    by decide, fun now cache exch phone amount push h => ?_⟩
  have hb : (phoneMatches254_17 phone && amountIsFloatMin1 amount) = false := by
    rcases h with h | h <;> simp [h]
  refine ⟨?_, ?_, ?_⟩ <;> simp [stkPushRouteP5, hb]

/-- Witness for C6 (amended): the `part_005` route answers a request
with phone `"12345"` and amount 500 with status 400, zero network calls
and an untouched (empty) token cache. -/
theorem stk_push_validator_behavior_witness :
    (stkPushRouteP5 0 none (.ok "tok") "12345" (some 500) .httpError).httpStatus = 400 ∧
    (stkPushRouteP5 0 none (.ok "tok") "12345" (some 500) .httpError).calls = [] ∧
    (stkPushRouteP5 0 none (.ok "tok") "12345" (some 500) .httpError).cache = none :=
  stk_push_validator_behavior.2.2.2.2.2.2.2.2.2.2
    0 none (.ok "tok") "12345" (some 500) .httpError (Or.inl rfl)

/-- **C10.** The amount forwarded to the gateway is the integer part of
the validated request amount: both payload builders put `⌊q⌋` in the
`Amount` field for every validated amount `q ≥ 1` (`Math.floor` in
`mpesaRoutes.js`, `parseInt` — truncation toward zero, equal to the
floor on positives — in `part_005`); such an amount passes both amount
validations, the forwarded value satisfies `⌊q⌋ ≤ q < ⌊q⌋ + 1`, and
whenever `q` has a fractional part the gateway is asked for strictly
less than the requested amount. -/
theorem stk_amount_floor_truncation (phone : String) (q : ℚ) (h : 1 ≤ q) :
    (buildStkPayload phone q).amountField = ⌊q⌋ ∧
    (buildStkPayloadP5 phone q).amountField = ⌊q⌋ ∧
    amountOkRoutes (some q) = true ∧
    amountIsFloatMin1 (some q) = true ∧
    ((⌊q⌋ : ℚ) ≤ q ∧ q < ⌊q⌋ + 1) ∧
    (q.den ≠ 1 → ((buildStkPayload phone q).amountField : ℚ) < q) := by
  have h0 : (0 : ℚ) ≤ q := le_trans (by norm_num) h
  refine ⟨rfl, ?_, ?_, ?_, ⟨Int.floor_le q, Int.lt_floor_add_one q⟩, fun hden => ?_⟩
  · simp [buildStkPayloadP5, jsParseInt, h0]
  · simp [amountOkRoutes, not_lt.mpr h]
  · simp [amountIsFloatMin1, h]
  · refine lt_of_le_of_ne (Int.floor_le q) (fun heq => hden ?_)
    rw [← heq]
    exact Rat.den_intCast _

/-- Witness for C10 at the claim's own example: the amount 1.5 passes
the minimum-1 validation and is forwarded as `⌊3/2⌋ = 1`. -/
theorem stk_amount_floor_truncation_witness :
    amountOkRoutes (some (3 / 2)) = true ∧
    (buildStkPayload "254712345678" (3 / 2)).amountField = ⌊(3 / 2 : ℚ)⌋ ∧
    (⌊(3 / 2 : ℚ)⌋ : ℤ) = 1 :=
  ⟨(stk_amount_floor_truncation "254712345678" (3 / 2) (by norm_num)).2.2.1,
   (stk_amount_floor_truncation "254712345678" (3 / 2) (by norm_num)).1,
   by norm_num⟩

/-! ## Claim C9: history pagination -/

/-- The page of data has `min limit (total − (page − 1)·limit)`
records. -/
theorem historyRoute_data_length (store : Store) (phone : String) (page limit : Nat) :
    (historyRoute store phone page limit).data.length
      = min limit ((store.filter (fun r => r.phone == phone)).length - (page - 1) * limit) := by
  simp [historyRoute, List.length_take, List.length_drop, List.length_insertionSort]

/-- `(a + b − 1) / b` is the ceiling of `a / b`: it is the least `c`
with `a ≤ c·b`. -/
theorem jsMathCeilDiv_bounds (a b : Nat) (hb : 0 < b) :
    a ≤ jsMathCeilDiv a b * b ∧ jsMathCeilDiv a b * b < a + b := by
  unfold jsMathCeilDiv
  have h1 : (a + b - 1) / b * b ≤ a + b - 1 := Nat.div_mul_le_self _ _
  have h2 : a + b - 1 < (a + b - 1) / b * b + b := Nat.lt_div_mul_add hb
  generalize (a + b - 1) / b * b = m at h1 h2
  omega

/-- **C9.** The history query answers with the records of the given
phone, sorted by `createdAt` descending, after skipping
`(page − 1)·limit` of them and taking at most `limit`; `total` is the
full matching count and `totalPages` is the ceiling of
`total / limit` (characterized by `total ≤ totalPages·limit
< total + limit`). In particular, when 25 records match and
`limit = 10`, page 1 holds 10 records with `totalPages = 3`, page 3
holds 5, and page 4 holds 0 without error. -/
theorem history_pagination (store : Store) (phone : String) (page limit : Nat)
    (hl : 0 < limit) :
    (historyRoute store phone page limit).total
        = (store.filter (fun r => r.phone == phone)).length ∧
    (historyRoute store phone page limit).data.length
        = min limit ((historyRoute store phone page limit).total - (page - 1) * limit) ∧
    (∀ r ∈ (historyRoute store phone page limit).data, r.phone = phone) ∧
    List.Sorted createdDesc (historyRoute store phone page limit).data ∧
    (historyRoute store phone page limit).total
        ≤ (historyRoute store phone page limit).totalPages * limit ∧
    (historyRoute store phone page limit).totalPages * limit
        < (historyRoute store phone page limit).total + limit ∧
    ((store.filter (fun r => r.phone == phone)).length = 25 →
        (historyRoute store phone 1 10).data.length = 10 ∧
        (historyRoute store phone 1 10).totalPages = 3 ∧
        (historyRoute store phone 3 10).data.length = 5 ∧
        (historyRoute store phone 4 10).data.length = 0) := by
  refine ⟨rfl, historyRoute_data_length store phone page limit, ?_, ?_, ?_, ?_, ?_⟩
  · intro r hr
    have hs : r ∈ (store.filter (fun x => x.phone == phone)).insertionSort createdDesc := by
      exact List.mem_of_mem_drop (List.mem_of_mem_take hr)
    have hm := (List.mem_insertionSort createdDesc).mp hs
    simpa using (List.mem_filter.mp hm).2
  · have hsorted : List.Sorted createdDesc
        ((store.filter (fun x => x.phone == phone)).insertionSort createdDesc) :=
      List.sorted_insertionSort createdDesc _
    have hsub : List.Sublist (historyRoute store phone page limit).data
        ((store.filter (fun x => x.phone == phone)).insertionSort createdDesc) :=
      (List.take_sublist _ _).trans (List.drop_sublist _ _)
    exact List.Pairwise.sublist hsub hsorted
  · exact (jsMathCeilDiv_bounds _ limit hl).1
  · exact (jsMathCeilDiv_bounds _ limit hl).2
  · intro h25
    refine ⟨?_, ?_, ?_, ?_⟩
    · rw [historyRoute_data_length store phone 1 10, h25]; decide
    · show jsMathCeilDiv (store.filter (fun r => r.phone == phone)).length 10 = 3
      rw [h25]; decide
    · rw [historyRoute_data_length store phone 3 10, h25]; decide
    · rw [historyRoute_data_length store phone 4 10, h25]; decide

/-- Witness for C9 on a concrete ledger of 25 same-phone records:
page 1 of 10 holds 10 records with `totalPages = 3`, page 3 holds 5,
page 4 holds 0. -/
theorem history_pagination_witness :
    (historyRoute demoStore25 "254712345678" 1 10).data.length = 10 ∧
    (historyRoute demoStore25 "254712345678" 1 10).totalPages = 3 ∧
    (historyRoute demoStore25 "254712345678" 3 10).data.length = 5 ∧
    (historyRoute demoStore25 "254712345678" 4 10).data.length = 0 :=
  (history_pagination demoStore25 "254712345678" 1 10 (by decide)).2.2.2.2.2.2
    (by decide)

end Pandora
